import Mathlib

/-!
Shallow embedding of the PlexClockifyTracker repository
(`plexclockifytracker/config.py` and `plexclockifytracker/clockify.py`)
and proofs about the claims of its specification.

Python/JSON values are modelled by the inductive `Val`; Python `None` and
JSON `null` (which `requests`' `.json()` decodes to `None`) are both
`Val.null`.  Exceptions are modelled by `Except PyError`.  The HTTP layer
is modelled by an oracle `Server : Req → HttpResp`; each client operation
is a state-and-trace computation `CM α` over the client's mutable state,
recording the list of HTTP requests it issued, in order.
-/

namespace PlexClockify

/-- JSON values, also standing for the Python values the code manipulates. -/
inductive Val where
  | null : Val
  | bool : Bool → Val
  | num : Int → Val
  | str : String → Val
  | arr : List Val → Val
  | obj : List (String × Val) → Val

/-- Python truthiness (`if not x`): `None`, `False`, `0`, `""`, `[]`, `{}`
are falsy, everything else truthy. -/
def Val.isTruthy : Val → Bool
  | .null => false
  | .bool b => b
  | .num n => n != 0
  | .str s => s != ""
  | .arr xs => !xs.isEmpty
  | .obj fs => !fs.isEmpty

/-- Truthiness of an optional value (`None` ↦ `none`). -/
def pyOptTruthy : Option Val → Bool
  | none => false
  | some v => v.isTruthy

/-- The exception kinds the embedded code can raise.  `remoteAPIError`
models the `Exception("Clockify response was: [status] text")` raised by
`Clockify._request` on a non-2xx response (what the spec calls
`RemoteAPIError {statusCode, body}`); `configurationError` models the
`ValueError` raised by `Clockify.__init__` (the spec's
`ConfigurationError`); `nameError` the `NameError` of `Config.set`;
`keyError`, `indexError`, `typeError`, `attrError` the corresponding
Python built-in exceptions. -/
inductive PyError where
  | remoteAPIError (statusCode : Nat) (body : String)
  | configurationError (msg : String)
  | nameError (msg : String)
  | keyError (key : String)
  | indexError
  | typeError (msg : String)
  | attrError (msg : String)
deriving DecidableEq

/-- Python `d[k]` on a dict (`KeyError` when missing, `TypeError` when the
value is not a dict). -/
def pyGetItem : Val → String → Except PyError Val
  | .obj fs, k =>
    match fs.lookup k with
    | some v => .ok v
    | none => .error (.keyError k)
  | _, _ => .error (.typeError "object is not subscriptable")

/-- Python `xs[0]` on a list (`IndexError` when empty, `TypeError` when the
value is not a list; dict-with-int-key and string indexing corners are
collapsed into `typeError`, they are unreachable in the claims). -/
def pyIndex0 : Val → Except PyError Val
  | .arr (x :: _) => .ok x
  | .arr [] => .error .indexError
  | _ => .error (.typeError "object is not subscriptable")

/-- Python `d.get(k)` (the `dict.get` method: `none` when the key is
missing; `AttributeError` when the receiver is not a dict). -/
def pyDictGet : Val → String → Except PyError (Option Val)
  | .obj fs, k => .ok (fs.lookup k)
  | _, _ => .error (.attrError "object has no attribute get")

/-- Python `x is None` on the result of `dict.get`: true when the key was
missing or its value was JSON `null` (which decodes to Python `None`). -/
def pyIsNone : Option Val → Bool
  | none => true
  | some .null => true
  | some _ => false

/-- Python `k in x` for a string `k`: key containment on dicts, membership
on lists; other receivers raise `TypeError` (the substring test on a
string receiver is collapsed into `typeError`, unreachable in the claims). -/
def pyIn (k : String) : Val → Except PyError Bool
  | .obj fs => .ok ((fs.map Prod.fst).contains k)
  | .arr xs => .ok (xs.any (fun v => match v with | .str s => s == k | _ => false))
  | _ => .error (.typeError "argument is not iterable")

/-- Python `str(v)` as used by `str.format` when interpolating ids into
endpoint paths.  The ids returned by the Clockify API are JSON strings;
the container and `None` cases are included for totality only (Python
would print the container's repr there) and are unreachable in the
claims, which all supply string ids. -/
def Val.pyStr : Val → String
  | .str s => s
  | .num n => toString n
  | .bool true => "True"
  | .bool false => "False"
  | .null => "None"
  | .arr _ => "<list>"
  | .obj _ => "<dict>"

/-- Python dict assignment `d[k] = v` on a string-keyed dict, preserving
insertion order (updating an existing key keeps its position). -/
def dictSet (d : List (String × Val)) (k : String) (v : Val) :
    List (String × Val) :=
  if (d.map Prod.fst).contains k then
    d.map (fun p => if p.1 = k then (k, v) else p)
  else
    d ++ [(k, v)]

/-! ## `config.py` -/

/-- The built-in example mapping, the initial value of
`Config.__conf["mapping"]`. -/
def defaultMapping : Val :=
  .arr [.obj [("libraries", .arr [.str "TV Shows", .str "Movies"]),
              ("project", .str "Watching TV")]]

/-- The state of `Config.__conf`.  Its key set is fixed forever
(`__setters = __conf.keys()` and `set` only overwrites recognized keys),
so the dict is embedded as a record with one field per key. -/
structure Conf where
  clockify_api_key : Val
  plex_username : Val
  mapping : Val

/-- The initial `Config.__conf`. -/
def Conf.start : Conf :=
  { clockify_api_key := .str "", plex_username := .str "", mapping := defaultMapping }

/-- `Config.get(name)`: `Config.__conf[name]`, `KeyError` on an
unrecognized name. -/
def Config.get (c : Conf) (name : String) : Except PyError Val :=
  if name = "clockify_api_key" then .ok c.clockify_api_key
  else if name = "plex_username" then .ok c.plex_username
  else if name = "mapping" then .ok c.mapping
  else .error (.keyError name)

/-- `Config.set(name, value)`: overwrites a recognized key, raises
`NameError` otherwise. -/
def Config.set (c : Conf) (name : String) (value : Val) :
    Except PyError Conf :=
  if name = "clockify_api_key" then .ok { c with clockify_api_key := value }
  else if name = "plex_username" then .ok { c with plex_username := value }
  else if name = "mapping" then .ok { c with mapping := value }
  else .error (.nameError "Name not accepted in set() method")

/-- `configure(clockify_api_key, plex_username, mapping=None)`.  The
Python parameter `mapping` defaults to `None`, so a call that omits the
argument is the call with `mapping = Val.null` here. -/
def configure (c : Conf) (clockify_api_key plex_username mapping : Val) :
    Except PyError Conf := do
  let c ← Config.set c "clockify_api_key" clockify_api_key
  let c ← Config.set c "plex_username" plex_username
  Config.set c "mapping" mapping

/-! ## `clockify.py`: HTTP layer and client state -/

/-- One HTTP request as issued by `Clockify._request`: the endpoint
(appended to `BASE_URL`), URL parameters, method, JSON body and the
headers sent with it. -/
structure Req where
  endpoint : String
  params : List (String × Val)
  method : String
  body : List (String × Val)
  headers : List (String × Val)

/-- An HTTP response: `status_code`, `text` (the raw body) and `json`
(the decoded body, what `.json()` returns). -/
structure HttpResp where
  status_code : Nat
  text : String
  json : Val

/-- The remote service, as a deterministic oracle from requests to
responses.  This models one window of interaction with no interference
from other clients: the same request gets the same answer. -/
def Server : Type := Req → HttpResp

/-- The mutable state of one `Clockify` instance: `_app_name`,
`_workspace` (the memoization cell, `None` initially), `_headers` and
`_api_key`. -/
structure ClientState where
  app_name : String
  workspace : Option Val
  headers : List (String × Val)
  api_key : Val

/-- The trace of HTTP requests an operation issued, in order. -/
abbrev Trace := List Req

/-- A client operation: given the instance state, it returns the Python
result (or the exception raised), the updated state, and the trace of
HTTP requests issued. -/
def CM (α : Type) : Type :=
  ClientState → Except PyError α × ClientState × Trace

def CM.pure {α : Type} (a : α) : CM α := fun s => (.ok a, s, [])

def CM.bind {α β : Type} (m : CM α) (f : α → CM β) : CM β := fun s =>
  match m s with
  | (.ok a, s1, t1) =>
    match f a s1 with
    | (r, s2, t2) => (r, s2, t1 ++ t2)
  | (.error e, s1, t1) => (.error e, s1, t1)

instance : Monad CM where
  pure := @CM.pure
  bind := @CM.bind

/-- Raise an exception. -/
def CM.throw {α : Type} (e : PyError) : CM α := fun s => (.error e, s, [])

/-- Read the instance state (`self`). -/
def CM.read : CM ClientState := fun s => (.ok s, s, [])

/-- Replace the instance state (attribute assignment on `self`). -/
def CM.write (s' : ClientState) : CM Unit := fun _ => (.ok (), s', [])

/-- Lift a pure Python computation that may raise. -/
def CM.ofExcept {α : Type} : Except PyError α → CM α
  | .ok a => .pure a
  | .error e => .throw e

/-- `Clockify._request(endpoint, params, method, body)`: issues exactly
one HTTP request with the instance headers and raises on a non-2xx
status (`rtn.status_code < 200 or rtn.status_code >= 300`), carrying the
status code and the response text. -/
def Clockify.request (server : Server) (endpoint : String)
    (params : List (String × Val)) (method : String)
    (body : List (String × Val)) : CM HttpResp := fun s =>
  let req : Req := { endpoint := endpoint, params := params,
                     method := method, body := body, headers := s.headers }
  let rtn := server req
  if rtn.status_code < 200 ∨ 300 ≤ rtn.status_code then
    (.error (.remoteAPIError rtn.status_code rtn.text), s, [req])
  else
    (.ok rtn, s, [req])

/-- `Clockify.__init__`: fails when the configured `clockify_api_key` is
falsy (`if not Config.get(...)`), otherwise builds the instance state
with the key written into the `X-Api-Key` header. -/
def Clockify.new (conf : Conf) : Except PyError ClientState := do
  let key ← Config.get conf "clockify_api_key"
  if !key.isTruthy then
    Except.error (.configurationError "clockify_api_key is not configured.")
  else
    let key2 ← Config.get conf "clockify_api_key"
    Except.ok
      { app_name := "PlexClockifyTracker_webhook",
        workspace := none,
        headers := dictSet [("content-type", .str "application/json"),
                            ("X-Api-Key", .str "")] "X-Api-Key" key2,
        api_key := key2 }

/-! ## `clockify.py`: the five client operations -/

/-- `Clockify.get_workspace`: returns the cached `_workspace` when it is
truthy; otherwise fetches `GET /workspaces`, caches `json()[0]` and
returns it. -/
def Clockify.get_workspace (server : Server) : CM Val := do
  let s ← CM.read
  if pyOptTruthy s.workspace then
    CM.pure (s.workspace.getD .null)
  else
    let rtn ← Clockify.request server "/workspaces" [] "GET" []
    let w ← CM.ofExcept (pyIndex0 rtn.json)
    CM.write { s with workspace := some w }
    CM.pure w

/-- Python `x["name"] == name` mapped over a project list, left to right
(`list(filter(lambda x: x["name"] == name, projects))`); a project
without a `"name"` key raises `KeyError` as the lambda would. -/
def filterByName (name : String) : List Val → Except PyError (List Val)
  | [] => .ok []
  | x :: xs => do
    let v ← pyGetItem x "name"
    let rest ← filterByName name xs
    match v with
    | .str s => if s = name then .ok (x :: rest) else .ok rest
    | _ => .ok rest

/-- `Clockify.get_projects(name="")`: resolves the workspace id, fetches
the project list, and — when `name` is truthy — returns the first
project whose name equals `name`, or the empty list `[]` when none
matches; with a falsy `name` (the default `""`) it returns the full
list. -/
def Clockify.get_projects (server : Server) (name : String) : CM Val := do
  let w ← Clockify.get_workspace server
  let wid ← CM.ofExcept (pyGetItem w "id")
  let rtn ← Clockify.request server
    ("/workspaces/" ++ wid.pyStr ++ "/projects") [] "GET" []
  let projects := rtn.json
  if name != "" then
    match projects with
    | .arr ps => do
      let project ← CM.ofExcept (filterByName name ps)
      match project with
      | p :: _ => CM.pure p
      | [] => CM.pure (Val.arr [])
    | _ => CM.throw (.typeError "argument is not iterable")
  else
    CM.pure projects

/-- `Clockify.get_running_timer`: resolves the workspace id and the user
id (`GET /user`), fetches the most recent time entry
(`hydrated=true`, `page-size=1`), and returns it when
`timeInterval.end` is Python `None`; otherwise returns `None`
(`Val.null`), the no-running-timer sentinel. -/
def Clockify.get_running_timer (server : Server) : CM Val := do
  let w ← Clockify.get_workspace server
  let wid ← CM.ofExcept (pyGetItem w "id")
  let urtn ← Clockify.request server "/user" [] "GET" []
  let uid ← CM.ofExcept (pyGetItem urtn.json "id")
  let rtn ← Clockify.request server
    ("/workspaces/" ++ wid.pyStr ++ "/user/" ++ uid.pyStr ++ "/time-entries")
    [("hydrated", .str "true"), ("page-size", .num 1)] "GET" []
  let time_entries := rtn.json
  if time_entries.isTruthy then
    let e0 ← CM.ofExcept (pyIndex0 time_entries)
    let hasTI ← CM.ofExcept (pyIn "timeInterval" e0)
    if hasTI then
      let ti ← CM.ofExcept (pyGetItem e0 "timeInterval")
      let endv ← CM.ofExcept (pyDictGet ti "end")
      if pyIsNone endv then CM.pure e0 else CM.pure Val.null
    else
      CM.pure Val.null
  else
    CM.pure Val.null

/-- `Clockify.stop_timer`: returns `None` at once when
`get_running_timer` yields a falsy value; otherwise resolves ids and
PATCHes `{end: now}` to the user's time-entries endpoint, returning the
response json.  `now` stands for the string
`datetime.now(timezone.utc).strftime("%Y-%m-%dT%H:%M:%SZ")` computed at
the moment of the call. -/
def Clockify.stop_timer (server : Server) (now : String) : CM Val := do
  let timer ← Clockify.get_running_timer server
  if !timer.isTruthy then
    CM.pure Val.null
  else
    let w ← Clockify.get_workspace server
    let wid ← CM.ofExcept (pyGetItem w "id")
    let urtn ← Clockify.request server "/user" [] "GET" []
    let uid ← CM.ofExcept (pyGetItem urtn.json "id")
    let rtn ← Clockify.request server
      ("/workspaces/" ++ wid.pyStr ++ "/user/" ++ uid.pyStr ++ "/time-entries")
      [] "PATCH" [("end", .str now)]
    CM.pure rtn.json

/-- `Clockify.start_timer(description, project_id)`: stops any running
timer first (discarding the result), resolves the workspace id and the
(unused) user id, then POSTs the new entry
`{start, description, projectId, billable: "false"}` and returns the
response json.  `nowStop` and `nowStart` stand for the two
`datetime.now(timezone.utc).strftime("%Y-%m-%dT%H:%M:%SZ")` strings
computed inside `stop_timer` and before the POST. -/
def Clockify.start_timer (server : Server) (nowStop nowStart : String)
    (description project_id : String) : CM Val := do
  let running ← Clockify.get_running_timer server
  let _ ← if running.isTruthy then Clockify.stop_timer server nowStop
          else CM.pure Val.null
  let w ← Clockify.get_workspace server
  let wid ← CM.ofExcept (pyGetItem w "id")
  let urtn ← Clockify.request server "/user" [] "GET" []
  let _ ← CM.ofExcept (pyGetItem urtn.json "id")
  let rtn ← Clockify.request server
    ("/workspaces/" ++ wid.pyStr ++ "/time-entries") [] "POST"
    [("start", .str nowStart), ("description", .str description),
     ("projectId", .str project_id), ("billable", .str "false")]
  CM.pure rtn.json

/-! ## The concrete requests the operations issue -/

/-- The `GET /workspaces` request. -/
def wsReq (h : List (String × Val)) : Req :=
  { endpoint := "/workspaces", params := [], method := "GET", body := [],
    headers := h }

/-- The `GET /user` request. -/
def userReq (h : List (String × Val)) : Req :=
  { endpoint := "/user", params := [], method := "GET", body := [],
    headers := h }

/-- The most-recent-time-entry request (`hydrated=true`, `page-size=1`). -/
def teReq (wid uid : String) (h : List (String × Val)) : Req :=
  { endpoint := "/workspaces/" ++ wid ++ "/user/" ++ uid ++ "/time-entries",
    params := [("hydrated", .str "true"), ("page-size", .num 1)],
    method := "GET", body := [], headers := h }

/-- The project-list request. -/
def projReq (wid : String) (h : List (String × Val)) : Req :=
  { endpoint := "/workspaces/" ++ wid ++ "/projects", params := [],
    method := "GET", body := [], headers := h }

/-- The stop-timer PATCH request with body `{end: now}`. -/
def tePatchReq (wid uid now : String) (h : List (String × Val)) : Req :=
  { endpoint := "/workspaces/" ++ wid ++ "/user/" ++ uid ++ "/time-entries",
    params := [], method := "PATCH", body := [("end", .str now)],
    headers := h }

/-- The start-timer POST request with body
`{start, description, projectId, billable: "false"}`. -/
def tePostReq (wid nowStart description project_id : String)
    (h : List (String × Val)) : Req :=
  { endpoint := "/workspaces/" ++ wid ++ "/time-entries", params := [],
    method := "POST",
    body := [("start", .str nowStart), ("description", .str description),
             ("projectId", .str project_id), ("billable", .str "false")],
    headers := h }

/-! ## Claim C6: memoization of `get_workspace` -/

/-- `n` successive `get_workspace()` invocations on the same instance,
collecting the returned workspaces and the combined HTTP trace. -/
def get_workspace_times (server : Server) : Nat → CM (List Val)
  | 0 => CM.pure []
  | n + 1 => do
    let w ← Clockify.get_workspace server
    let ws ← get_workspace_times server n
    CM.pure (w :: ws)

/-- A server whose workspace list holds a single empty (falsy) workspace
object. -/
def emptyWsServer : Server := fun _ =>
  { status_code := 200, text := "", json := .arr [Val.obj []] }

/-- A freshly constructed client state with api key `"key"`. -/
def demoState : ClientState :=
  { app_name := "PlexClockifyTracker_webhook", workspace := none,
    headers := [("content-type", .str "application/json"),
                ("X-Api-Key", .str "key")],
    api_key := .str "key" }

/-! ## Claims C9 and C10: `get_projects` -/

/-- Whether Python's `x["name"] == name` holds: the project has a
`"name"` field and it is exactly the string `name`. -/
def nameMatches (name : String) (p : Val) : Bool :=
  match pyGetItem p "name" with
  | .ok (.str s) => decide (s = name)
  | _ => false

/-- The number of requests in a trace using the HTTP method `m`. -/
def countMethod (tr : Trace) (m : String) : Nat :=
  (tr.filter (fun r => decide (r.method = m))).length

/-- A concrete workspace object. -/
def demoWorkspace : Val := .obj [("id", .str "w1")]

/-- `demoState` with `demoWorkspace` already cached. -/
def demoStateW : ClientState := { demoState with workspace := some demoWorkspace }

/-- A server whose most recent time entry is running
(`timeInterval.end` is JSON null). -/
def runningTEServer : Server := fun req =>
  if req.endpoint = "/user" then
    { status_code := 200, text := "", json := .obj [("id", .str "u1")] }
  else if req.endpoint = "/workspaces/w1/user/u1/time-entries" then
    { status_code := 200, text := "",
      json := .arr [.obj [("id", .str "e1"),
                          ("timeInterval",
                           .obj [("start", .str "2024-01-01T00:00:00Z"),
                                 ("end", .null)])]] }
  else
    { status_code := 200, text := "", json := .arr [demoWorkspace] }

/-- A server whose most recent time entry is already stopped
(`timeInterval.end` is a timestamp string). -/
def stoppedTEServer : Server := fun req =>
  if req.endpoint = "/user" then
    { status_code := 200, text := "", json := .obj [("id", .str "u1")] }
  else if req.endpoint = "/workspaces/w1/user/u1/time-entries" then
    { status_code := 200, text := "",
      json := .arr [.obj [("id", .str "e1"),
                          ("timeInterval",
                           .obj [("start", .str "2024-01-01T00:00:00Z"),
                                 ("end", .str "2024-01-01T01:00:00Z")])]] }
  else
    { status_code := 200, text := "", json := .arr [demoWorkspace] }

/-- A server with three projects, two of them named `"Watching TV"`. -/
def projectsServer : Server := fun req =>
  if req.endpoint = "/workspaces/w1/projects" then
    { status_code := 200, text := "",
      json := .arr [.obj [("id", .str "p1"), ("name", .str "Other")],
                    .obj [("id", .str "p2"), ("name", .str "Watching TV")],
                    .obj [("id", .str "p3"), ("name", .str "Watching TV")]] }
  else
    { status_code := 200, text := "", json := .arr [demoWorkspace] }

/-- A server whose project list contains a project literally named the
empty string. -/
def edgeProjServer : Server := fun req =>
  if req.endpoint = "/workspaces/w1/projects" then
    { status_code := 200, text := "",
      json := .arr [.obj [("id", .str "q1"), ("name", .str "")],
                    .obj [("id", .str "q2"), ("name", .str "X")]] }
  else
    { status_code := 200, text := "", json := .arr [demoWorkspace] }

/-- A server with no time entries and a successful POST. -/
def noTimerServer : Server := fun req =>
  if req.endpoint = "/user" then
    { status_code := 200, text := "", json := .obj [("id", .str "u1")] }
  else if req.method = "POST" then
    { status_code := 201, text := "created",
      json := .obj [("id", .str "new1"), ("projectId", .str "proj123")] }
  else
    { status_code := 200, text := "", json := .arr [] }

/-- A server with a running entry, and succeeding PATCH and POST. -/
def busyServer : Server := fun req =>
  if req.endpoint = "/user" then
    { status_code := 200, text := "", json := .obj [("id", .str "u1")] }
  else if req.method = "PATCH" then
    { status_code := 200, text := "",
      json := .obj [("id", .str "e1"),
                    ("timeInterval",
                     .obj [("start", .str "2024-01-01T00:00:00Z"),
                           ("end", .str "2024-01-01T01:00:00Z")])] }
  else if req.method = "POST" then
    { status_code := 201, text := "", json := .obj [("id", .str "e2")] }
  else if req.endpoint = "/workspaces/w1/user/u1/time-entries" then
    { status_code := 200, text := "",
      json := .arr [.obj [("id", .str "e1"),
                          ("timeInterval",
                           .obj [("start", .str "2024-01-01T00:00:00Z"),
                                 ("end", .null)])]] }
  else
    { status_code := 200, text := "", json := .arr [demoWorkspace] }

/-! ## Claim C4: fail-fast on any non-2xx response, no retries -/

/-- A computation fails fast under `server`: whenever a request `r` in
its trace got a non-2xx response (the `_request` raise condition
`status < 200 or status >= 300`), `r` is the last request of the trace —
no further HTTP call, in particular no retry, follows it — and the
computation's result is exactly the `remoteAPIError` carrying that
response's status code and body. -/
def FailFast {α : Type} (server : Server) (m : CM α) : Prop :=
  ∀ s : ClientState, ∀ r ∈ (m s).2.2,
    ((server r).status_code < 200 ∨ 300 ≤ (server r).status_code) →
    (m s).2.2.getLast? = some r ∧
    (m s).1 = .error (.remoteAPIError (server r).status_code (server r).text)

/-- A server that answers every request with HTTP 500. -/
def failingServer : Server := fun _ =>
  { status_code := 500, text := "Internal Server Error", json := .null }

/-! ## Theorems -/

/-! ## Running `CM` computations: pointwise lemmas -/

@[simp]
theorem CM.pure_apply {α : Type} (a : α) (s : ClientState) :
    (CM.pure a) s = (.ok a, s, []) := rfl

@[simp]
theorem CM.monad_pure_apply {α : Type} (a : α) (s : ClientState) :
    (pure a : CM α) s = (.ok a, s, []) := rfl

@[simp]
theorem CM.bind_apply {α β : Type} (m : CM α) (f : α → CM β)
    (s : ClientState) :
    (m >>= f) s =
      match (m s).1 with
      | .ok a =>
        ((f a (m s).2.1).1, (f a (m s).2.1).2.1,
          (m s).2.2 ++ (f a (m s).2.1).2.2)
      | .error e => (.error e, (m s).2.1, (m s).2.2) := by
  show CM.bind m f s = _
  unfold CM.bind
  rcases hm : m s with ⟨r, s1, t1⟩
  cases r <;> simp [hm]

@[simp]
theorem CM.read_apply (s : ClientState) : CM.read s = (.ok s, s, []) := rfl

@[simp]
theorem CM.write_apply (s' s : ClientState) :
    CM.write s' s = (.ok (), s', []) := rfl

@[simp]
theorem CM.throw_apply {α : Type} (e : PyError) (s : ClientState) :
    (CM.throw e : CM α) s = (.error e, s, []) := rfl

@[simp]
theorem CM.ofExcept_ok {α : Type} (a : α) :
    (CM.ofExcept (.ok a) : CM α) = CM.pure a := rfl

@[simp]
theorem CM.ofExcept_error {α : Type} (e : PyError) :
    (CM.ofExcept (.error e) : CM α) = CM.throw e := rfl

/-- `Clockify._request` pointwise, 2xx case: the single request is
issued and the response is returned. -/
theorem Clockify.request_apply_ok (server : Server) (endpoint : String)
    (params : List (String × Val)) (method : String)
    (body : List (String × Val)) (s : ClientState)
    (h : 200 ≤ (server { endpoint := endpoint, params := params,
                         method := method, body := body,
                         headers := s.headers }).status_code ∧
         (server { endpoint := endpoint, params := params, method := method,
                   body := body, headers := s.headers }).status_code < 300) :
    Clockify.request server endpoint params method body s =
      (.ok (server { endpoint := endpoint, params := params, method := method,
                     body := body, headers := s.headers }), s,
       [{ endpoint := endpoint, params := params, method := method,
          body := body, headers := s.headers }]) := by
  unfold Clockify.request
  rw [if_neg (by omega)]

/-- `Clockify._request` pointwise, non-2xx case: the single request is
issued and the operation raises `remoteAPIError` with the status code
and the response body. -/
theorem Clockify.request_apply_err (server : Server) (endpoint : String)
    (params : List (String × Val)) (method : String)
    (body : List (String × Val)) (s : ClientState)
    (h : (server { endpoint := endpoint, params := params, method := method,
                   body := body, headers := s.headers }).status_code < 200 ∨
         300 ≤ (server { endpoint := endpoint, params := params,
                         method := method, body := body,
                         headers := s.headers }).status_code) :
    Clockify.request server endpoint params method body s =
      (.error (.remoteAPIError
         (server { endpoint := endpoint, params := params, method := method,
                   body := body, headers := s.headers }).status_code
         (server { endpoint := endpoint, params := params, method := method,
                   body := body, headers := s.headers }).text), s,
       [{ endpoint := endpoint, params := params, method := method,
          body := body, headers := s.headers }]) := by
  unfold Clockify.request
  rw [if_pos h]

/-- `Clockify._request` always issues exactly its own request, carrying
the instance headers, whatever the response status. -/
theorem Clockify.request_trace (server : Server) (endpoint : String)
    (params : List (String × Val)) (method : String)
    (body : List (String × Val)) (s : ClientState) :
    (Clockify.request server endpoint params method body s).2.2 =
      [{ endpoint := endpoint, params := params, method := method,
         body := body, headers := s.headers }] := by
  unfold Clockify.request
  dsimp only
  split <;> rfl

/-! ## Run lemmas for `get_workspace` -/

/-- With a truthy cached workspace, `get_workspace` returns it without
issuing any HTTP request and leaves the state unchanged. -/
theorem get_workspace_cached (server : Server) (st : ClientState) (w : Val)
    (hws : st.workspace = some w) (hwt : w.isTruthy = true) :
    Clockify.get_workspace server st = (.ok w, st, []) := by
  simp [Clockify.get_workspace, hws, pyOptTruthy, hwt]

/-- With a falsy (in particular absent) cache and a 2xx response whose
json is a non-empty list, `get_workspace` issues one `GET /workspaces`,
caches the first workspace and returns it. -/
theorem get_workspace_fetch (server : Server) (st : ClientState)
    (wsresp : HttpResp) (w : Val) (rest : List Val)
    (hws : pyOptTruthy st.workspace = false)
    (hresp : server (wsReq st.headers) = wsresp)
    (h2xx : 200 ≤ wsresp.status_code ∧ wsresp.status_code < 300)
    (hjson : wsresp.json = .arr (w :: rest)) :
    Clockify.get_workspace server st =
      (.ok w, { st with workspace := some w }, [wsReq st.headers]) := by
  have hresp' : server { endpoint := "/workspaces", params := [],
                         method := "GET", body := [],
                         headers := st.headers } = wsresp := hresp
  have hreq : Clockify.request server "/workspaces" [] "GET" [] st =
      (.ok wsresp, st, [wsReq st.headers]) := by
    rw [Clockify.request_apply_ok _ _ _ _ _ _ (by rw [hresp']; exact h2xx),
      hresp']
    rfl
  simp [Clockify.get_workspace, hws, hreq, hjson, pyIndex0]

/-! ## Claim C1: the `mapping` value stored by `configure` -/

/-- Claim C1, counterexample.  The claim says that calling `configure`
with the mapping argument omitted leaves the stored `mapping` at the
built-in example.  In Python the omitted argument is the default `None`
(`Val.null`), and `configure` unconditionally does
`Config.set("mapping", mapping)`: starting from the initial store, the
stored `mapping` afterwards is `None`, not the built-in example. -/
theorem C1_counterexample :
    configure Conf.start (Val.str "key") (Val.str "user") Val.null =
      Except.ok { clockify_api_key := Val.str "key",
                  plex_username := Val.str "user",
                  mapping := Val.null } ∧
    Val.null ≠ defaultMapping :=
  ⟨rfl, fun h => Val.noConfusion h⟩

/-- Claim C1, amended: for every prior state of the configuration store,
calling `configure` with `clockify_api_key` and `plex_username` but
omitting the `mapping` argument results in the stored `mapping` value
being Python `None` (the omitted argument's default), overwriting the
built-in example rather than preserving it. -/
theorem C1_amended (c : Conf) (k u : Val) :
    configure c k u Val.null =
      Except.ok { clockify_api_key := k, plex_username := u,
                  mapping := Val.null } := rfl

/-- Claim C1, witness: the amended statement at a concrete store. -/
theorem C1_witness :
    configure Conf.start (Val.str "abc") (Val.str "plexuser") Val.null =
      Except.ok { clockify_api_key := Val.str "abc",
                  plex_username := Val.str "plexuser",
                  mapping := Val.null } :=
  C1_amended Conf.start (Val.str "abc") (Val.str "plexuser")

/-! ## Claim C3: construction requires a truthy API key -/

/-- Claim C3: constructing the client fails with the configuration error
(`ValueError`, the spec's `ConfigurationError`) exactly when the
configured `clockify_api_key` is falsy — in particular when it is the
empty string, its initial value; when the key is a non-empty string `k`,
construction succeeds, the resulting state's headers carry the key, and
every HTTP request issued from that state carries those headers. -/
theorem C3_client_construction (conf : Conf) :
    (conf.clockify_api_key.isTruthy = false →
      Clockify.new conf =
        Except.error (.configurationError "clockify_api_key is not configured.")) ∧
    (∀ k : String, k ≠ "" → conf.clockify_api_key = Val.str k →
      Clockify.new conf =
        Except.ok { app_name := "PlexClockifyTracker_webhook",
                    workspace := none,
                    headers := [("content-type", Val.str "application/json"),
                                ("X-Api-Key", Val.str k)],
                    api_key := Val.str k } ∧
      ∀ (server : Server) (endpoint : String) (params : List (String × Val))
        (method : String) (body : List (String × Val)) (st : ClientState),
        Clockify.new conf = Except.ok st →
        ((Clockify.request server endpoint params method body) st).2.2 =
          [{ endpoint := endpoint, params := params, method := method,
             body := body,
             headers := [("content-type", Val.str "application/json"),
                         ("X-Api-Key", Val.str k)] }]) := by
  constructor
  · intro h
    simp [Clockify.new, Config.get, Bind.bind, Except.bind, h]
  · intro k hk hck
    have hnew : Clockify.new conf =
        Except.ok { app_name := "PlexClockifyTracker_webhook",
                    workspace := none,
                    headers := [("content-type", Val.str "application/json"),
                                ("X-Api-Key", Val.str k)],
                    api_key := Val.str k } := by
      simp [Clockify.new, Config.get, hck, Val.isTruthy, hk, Bind.bind,
        Except.bind, dictSet, List.contains]
    refine ⟨hnew, ?_⟩
    intro server endpoint params method body st hst
    rw [hnew] at hst
    cases hst
    rw [Clockify.request_trace]

/-- Once a truthy workspace is cached, any number of further
`get_workspace()` invocations return it and issue no HTTP request. -/
theorem get_workspace_times_cached (server : Server) (st : ClientState)
    (w : Val) (hws : st.workspace = some w) (hwt : w.isTruthy = true)
    (n : Nat) :
    get_workspace_times server n st = (.ok (List.replicate n w), st, []) := by
  induction n with
  | zero => simp [get_workspace_times]
  | succ k ih =>
    simp [get_workspace_times, get_workspace_cached server st w hws hwt, ih,
      List.replicate]

/-- Claim C6, counterexample.  The cache check is `if not
self._workspace`, Python truthiness: when the fetched first workspace is
the empty object `{}` (falsy), both of two successive `getWorkspace()`
invocations succeed and return it, yet each issues its own
`GET /workspaces` call — two calls in total, not exactly one. -/
theorem C6_counterexample :
    ((get_workspace_times emptyWsServer 2) demoState).2.2.map Req.endpoint =
      ["/workspaces", "/workspaces"] ∧
    ((get_workspace_times emptyWsServer 2) demoState).1 =
      .ok [Val.obj [], Val.obj []] :=
  ⟨rfl, rfl⟩

/-- Claim C6, amended: provided the first workspace of the returned list
is truthy (a non-empty object — the real-service case), any number of
`getWorkspace()` invocations on one instance issue exactly one
`GET /workspaces` call in total: the first invocation fetches and caches
the first workspace, every later one returns the cached workspace with
no HTTP call. -/
theorem C6_amended (server : Server) (st : ClientState)
    (wsresp : HttpResp) (w : Val) (rest : List Val)
    (hws : st.workspace = none)
    (hresp : server (wsReq st.headers) = wsresp)
    (h2xx : 200 ≤ wsresp.status_code ∧ wsresp.status_code < 300)
    (hjson : wsresp.json = .arr (w :: rest))
    (hwt : w.isTruthy = true) (n : Nat) :
    get_workspace_times server (n + 1) st =
      (.ok (List.replicate (n + 1) w), { st with workspace := some w },
       [wsReq st.headers]) := by
  have hfetch := get_workspace_fetch server st wsresp w rest
    (by rw [hws]; rfl) hresp h2xx hjson
  have hcached := get_workspace_times_cached server
    { st with workspace := some w } w rfl hwt n
  simp [get_workspace_times, hfetch, hcached, List.replicate]

/-- Claim C6, witness: with a server holding one non-empty workspace,
three invocations from a fresh state issue exactly one
`GET /workspaces`. -/
theorem C6_witness :
    get_workspace_times
        (fun _ => { status_code := 200, text := "",
                    json := .arr [Val.obj [("id", Val.str "w1")]] })
        3 demoState =
      (.ok (List.replicate 3 (Val.obj [("id", Val.str "w1")])),
       { demoState with workspace := some (Val.obj [("id", Val.str "w1")]) },
       [wsReq demoState.headers]) :=
  C6_amended _ demoState
    { status_code := 200, text := "", json := .arr [Val.obj [("id", Val.str "w1")]] }
    (Val.obj [("id", Val.str "w1")]) [] rfl rfl (by exact ⟨by norm_num, by norm_num⟩) rfl rfl 2

/-- When every fetched project has a `"name"` field, the filtering pass
of `get_projects` succeeds and keeps exactly the projects whose name
equals the filter, in order. -/
theorem filterByName_ok (name : String) (ps : List Val)
    (hshape : ∀ p ∈ ps, ∃ v, pyGetItem p "name" = .ok v) :
    filterByName name ps = .ok (ps.filter (nameMatches name)) := by
  induction ps with
  | nil => simp [filterByName]
  | cons p tl ih =>
    obtain ⟨v, hv⟩ := hshape p (by simp)
    have htl := ih (fun q hq => hshape q (by simp [hq]))
    cases v with
    | str s =>
      by_cases hs : s = name <;>
        simp [filterByName, hv, htl, Bind.bind, Except.bind, List.filter,
          nameMatches, hs]
    | null => simp [filterByName, hv, htl, Bind.bind, Except.bind,
        List.filter, nameMatches]
    | bool b => simp [filterByName, hv, htl, Bind.bind, Except.bind,
        List.filter, nameMatches]
    | num n => simp [filterByName, hv, htl, Bind.bind, Except.bind,
        List.filter, nameMatches]
    | arr xs => simp [filterByName, hv, htl, Bind.bind, Except.bind,
        List.filter, nameMatches]
    | obj fs => simp [filterByName, hv, htl, Bind.bind, Except.bind,
        List.filter, nameMatches]

/-- Claim C9: with a non-empty name filter, `get_projects` fetches the
project list once and returns the first project whose name exactly
equals the filter, or the empty list `[]` when no project's name equals
the filter; with no filter (the default `name=""`) it returns the full
project list. -/
theorem C9_get_projects_filter (server : Server) (st : ClientState)
    (w : Val) (wid : String) (presp : HttpResp) (ps : List Val)
    (hws : st.workspace = some w) (hwt : w.isTruthy = true)
    (hwid : pyGetItem w "id" = .ok (.str wid))
    (hpresp : server (projReq wid st.headers) = presp)
    (hp2xx : 200 ≤ presp.status_code ∧ presp.status_code < 300)
    (hpjson : presp.json = .arr ps) :
    (∀ name : String, name ≠ "" →
      (∀ p ∈ ps, ∃ v, pyGetItem p "name" = .ok v) →
      Clockify.get_projects server name st =
        (.ok (match ps.filter (nameMatches name) with
              | [] => Val.arr []
              | p :: _ => p),
         st, [projReq wid st.headers])) ∧
    Clockify.get_projects server "" st =
      (.ok (.arr ps), st, [projReq wid st.headers]) := by
  have hgw := get_workspace_cached server st w hws hwt
  have hresp' : server { endpoint := "/workspaces/" ++ wid ++ "/projects",
                         params := [], method := "GET", body := [],
                         headers := st.headers } = presp := hpresp
  have hreq : Clockify.request server ("/workspaces/" ++ wid ++ "/projects")
      [] "GET" [] st = (.ok presp, st, [projReq wid st.headers]) := by
    rw [Clockify.request_apply_ok _ _ _ _ _ _ (by rw [hresp']; exact hp2xx),
      hresp']
    rfl
  constructor
  · intro name hname hshape
    have hfil := filterByName_ok name ps hshape
    rcases hmatch : ps.filter (nameMatches name) with _ | ⟨p, r2⟩ <;>
      simp [Clockify.get_projects, hgw, hwid, Val.pyStr, hreq, hpjson, hname,
        hfil, hmatch]
  · simp [Clockify.get_projects, hgw, hwid, Val.pyStr, hreq, hpjson]

/-- Claim C10: calling `get_projects` with the empty string — which is
also what the Python default argument `name=""` supplies when the filter
is omitted — takes the falsy branch of `if name:` and returns the full
unfiltered project list (one GET, no filtering, no per-project `"name"`
lookup at all). -/
theorem C10_get_projects_nofilter (server : Server) (st : ClientState)
    (w : Val) (wid : String) (presp : HttpResp)
    (hws : st.workspace = some w) (hwt : w.isTruthy = true)
    (hwid : pyGetItem w "id" = .ok (.str wid))
    (hpresp : server (projReq wid st.headers) = presp)
    (hp2xx : 200 ≤ presp.status_code ∧ presp.status_code < 300) :
    Clockify.get_projects server "" st =
      (.ok presp.json, st, [projReq wid st.headers]) := by
  have hgw := get_workspace_cached server st w hws hwt
  have hresp' : server { endpoint := "/workspaces/" ++ wid ++ "/projects",
                         params := [], method := "GET", body := [],
                         headers := st.headers } = presp := hpresp
  have hreq : Clockify.request server ("/workspaces/" ++ wid ++ "/projects")
      [] "GET" [] st = (.ok presp, st, [projReq wid st.headers]) := by
    rw [Clockify.request_apply_ok _ _ _ _ _ _ (by rw [hresp']; exact hp2xx),
      hresp']
    rfl
  simp [Clockify.get_projects, hgw, hwid, Val.pyStr, hreq]

/-! ## Run lemmas for `get_running_timer` -/

/-- A successful lookup means the key is among the dict's keys. -/
theorem contains_of_lookup_some {β : Type} {l : List (String × β)}
    {k : String} {v : β} (h : l.lookup k = some v) :
    (l.map Prod.fst).contains k = true := by
  induction l with
  | nil => simp [List.lookup] at h
  | cons p tl ih =>
    cases p with
    | mk k' v' =>
      rw [List.lookup] at h
      cases hk : k == k' with
      | true => simp [List.contains, List.elem, hk]
      | false =>
        rw [hk] at h
        simp only [List.map, List.contains, List.elem, hk]
        have hc := ih h
        simpa [List.contains] using hc

/-- Running `get_running_timer` from a state with a truthy cached
workspace, against a server that answers the `GET /user` and the
most-recent-entry requests with 2xx and whose most recent entry is an
object with a `timeInterval` object: the result is the entry when
`timeInterval.get("end")` is Python `None` and the `None` sentinel
otherwise, the state is unchanged, and the trace is the two GETs. -/
theorem grt_run (server : Server) (st : ClientState) (w : Val)
    (wid uid : String) (uresp teresp : HttpResp)
    (ef tif : List (String × Val)) (rest : List Val)
    (hws : st.workspace = some w) (hwt : w.isTruthy = true)
    (hwid : pyGetItem w "id" = .ok (.str wid))
    (huresp : server (userReq st.headers) = uresp)
    (hu2xx : 200 ≤ uresp.status_code ∧ uresp.status_code < 300)
    (huid : pyGetItem uresp.json "id" = .ok (.str uid))
    (hteresp : server (teReq wid uid st.headers) = teresp)
    (hte2xx : 200 ≤ teresp.status_code ∧ teresp.status_code < 300)
    (htejson : teresp.json = .arr (Val.obj ef :: rest))
    (hti : ef.lookup "timeInterval" = some (.obj tif)) :
    Clockify.get_running_timer server st =
      (.ok (if pyIsNone (tif.lookup "end") then Val.obj ef else Val.null),
       st, [userReq st.headers, teReq wid uid st.headers]) := by
  have hgw := get_workspace_cached server st w hws hwt
  have huresp' : server { endpoint := "/user", params := [], method := "GET",
                          body := [], headers := st.headers } = uresp := huresp
  have hrequ : Clockify.request server "/user" [] "GET" [] st =
      (.ok uresp, st, [userReq st.headers]) := by
    rw [Clockify.request_apply_ok _ _ _ _ _ _ (by rw [huresp']; exact hu2xx),
      huresp']
    rfl
  have hteresp' : server { endpoint := "/workspaces/" ++ wid ++ "/user/" ++
                             uid ++ "/time-entries",
                           params := [("hydrated", .str "true"),
                                      ("page-size", .num 1)],
                           method := "GET", body := [],
                           headers := st.headers } = teresp := hteresp
  have hreqte : Clockify.request server
      ("/workspaces/" ++ wid ++ "/user/" ++ uid ++ "/time-entries")
      [("hydrated", .str "true"), ("page-size", .num 1)] "GET" [] st =
      (.ok teresp, st, [teReq wid uid st.headers]) := by
    rw [Clockify.request_apply_ok _ _ _ _ _ _ (by rw [hteresp']; exact hte2xx),
      hteresp']
    rfl
  have hcontains := contains_of_lookup_some hti
  have hidx : pyIndex0 (Val.arr (Val.obj ef :: rest)) = .ok (Val.obj ef) := rfl
  have hin : pyIn "timeInterval" (Val.obj ef) = .ok true := by
    simp only [pyIn]
    rw [hcontains]
  have hgetTI : pyGetItem (Val.obj ef) "timeInterval" = .ok (.obj tif) := by
    simp [pyGetItem, hti]
  have hdg : pyDictGet (Val.obj tif) "end" = .ok (tif.lookup "end") := rfl
  by_cases hend : pyIsNone (tif.lookup "end") = true
  · simp [Clockify.get_running_timer, hgw, hwid, Val.pyStr, hrequ, huid,
      hreqte, htejson, Val.isTruthy, hidx, hin, hgetTI, hdg, hend]
  · simp [Clockify.get_running_timer, hgw, hwid, Val.pyStr, hrequ, huid,
      hreqte, htejson, Val.isTruthy, hidx, hin, hgetTI, hdg, hend]

/-- `get_running_timer` when the most recent time entry list comes back
empty: the sentinel is returned after the same two GETs. -/
theorem grt_run_empty (server : Server) (st : ClientState) (w : Val)
    (wid uid : String) (uresp teresp : HttpResp)
    (hws : st.workspace = some w) (hwt : w.isTruthy = true)
    (hwid : pyGetItem w "id" = .ok (.str wid))
    (huresp : server (userReq st.headers) = uresp)
    (hu2xx : 200 ≤ uresp.status_code ∧ uresp.status_code < 300)
    (huid : pyGetItem uresp.json "id" = .ok (.str uid))
    (hteresp : server (teReq wid uid st.headers) = teresp)
    (hte2xx : 200 ≤ teresp.status_code ∧ teresp.status_code < 300)
    (htejson : teresp.json = .arr []) :
    Clockify.get_running_timer server st =
      (.ok Val.null, st, [userReq st.headers, teReq wid uid st.headers]) := by
  have hgw := get_workspace_cached server st w hws hwt
  have huresp' : server { endpoint := "/user", params := [], method := "GET",
                          body := [], headers := st.headers } = uresp := huresp
  have hrequ : Clockify.request server "/user" [] "GET" [] st =
      (.ok uresp, st, [userReq st.headers]) := by
    rw [Clockify.request_apply_ok _ _ _ _ _ _ (by rw [huresp']; exact hu2xx),
      huresp']
    rfl
  have hteresp' : server { endpoint := "/workspaces/" ++ wid ++ "/user/" ++
                             uid ++ "/time-entries",
                           params := [("hydrated", .str "true"),
                                      ("page-size", .num 1)],
                           method := "GET", body := [],
                           headers := st.headers } = teresp := hteresp
  have hreqte : Clockify.request server
      ("/workspaces/" ++ wid ++ "/user/" ++ uid ++ "/time-entries")
      [("hydrated", .str "true"), ("page-size", .num 1)] "GET" [] st =
      (.ok teresp, st, [teReq wid uid st.headers]) := by
    rw [Clockify.request_apply_ok _ _ _ _ _ _ (by rw [hteresp']; exact hte2xx),
      hteresp']
    rfl
  simp [Clockify.get_running_timer, hgw, hwid, Val.pyStr, hrequ, huid,
    hreqte, htejson, Val.isTruthy]

/-! ## Run lemma for `stop_timer` with a running timer -/

/-- When the most recent entry is running, `stop_timer` re-resolves the
user id and PATCHes `{end: now}` to the time-entries endpoint, returning
the PATCH response json; the trace is GET, GET, GET, PATCH. -/
theorem stop_timer_run (server : Server) (st : ClientState) (w : Val)
    (wid uid now : String) (uresp teresp presp : HttpResp)
    (ef tif : List (String × Val)) (rest : List Val)
    (hws : st.workspace = some w) (hwt : w.isTruthy = true)
    (hwid : pyGetItem w "id" = .ok (.str wid))
    (huresp : server (userReq st.headers) = uresp)
    (hu2xx : 200 ≤ uresp.status_code ∧ uresp.status_code < 300)
    (huid : pyGetItem uresp.json "id" = .ok (.str uid))
    (hteresp : server (teReq wid uid st.headers) = teresp)
    (hte2xx : 200 ≤ teresp.status_code ∧ teresp.status_code < 300)
    (htejson : teresp.json = .arr (Val.obj ef :: rest))
    (hti : ef.lookup "timeInterval" = some (.obj tif))
    (hend : pyIsNone (tif.lookup "end") = true)
    (hpresp : server (tePatchReq wid uid now st.headers) = presp)
    (hp2xx : 200 ≤ presp.status_code ∧ presp.status_code < 300) :
    Clockify.stop_timer server now st =
      (.ok presp.json, st,
       [userReq st.headers, teReq wid uid st.headers, userReq st.headers,
        tePatchReq wid uid now st.headers]) := by
  have h := grt_run server st w wid uid uresp teresp ef tif rest hws hwt
    hwid huresp hu2xx huid hteresp hte2xx htejson hti
  have htruthy : (Val.obj ef).isTruthy = true := by
    cases ef with
    | nil => simp [List.lookup] at hti
    | cons p tl => simp [Val.isTruthy]
  have hgw := get_workspace_cached server st w hws hwt
  have huresp' : server { endpoint := "/user", params := [], method := "GET",
                          body := [], headers := st.headers } = uresp := huresp
  have hrequ : Clockify.request server "/user" [] "GET" [] st =
      (.ok uresp, st, [userReq st.headers]) := by
    rw [Clockify.request_apply_ok _ _ _ _ _ _ (by rw [huresp']; exact hu2xx),
      huresp']
    rfl
  have hpresp' : server { endpoint := "/workspaces/" ++ wid ++ "/user/" ++
                            uid ++ "/time-entries",
                          params := [], method := "PATCH",
                          body := [("end", .str now)],
                          headers := st.headers } = presp := hpresp
  have hreqp : Clockify.request server
      ("/workspaces/" ++ wid ++ "/user/" ++ uid ++ "/time-entries")
      [] "PATCH" [("end", .str now)] st =
      (.ok presp, st, [tePatchReq wid uid now st.headers]) := by
    rw [Clockify.request_apply_ok _ _ _ _ _ _ (by rw [hpresp']; exact hp2xx),
      hpresp']
    rfl
  simp [Clockify.stop_timer, h, hend, htruthy, hgw, hwid, Val.pyStr, hrequ,
    huid, hreqp]

/-! ## Claim C7: `get_running_timer` and `timeInterval.end` -/

/-- Claim C7: `get_running_timer` returns the most recent time entry
exactly when that entry's `timeInterval.end` is Python `None` (JSON
`null` or absent); when `end` is non-null it returns the
no-running-timer sentinel `None` — an ordinary return value (`.ok`), not
an error. -/
theorem C7_running_timer_end_null (server : Server) (st : ClientState)
    (w : Val) (wid uid : String) (uresp teresp : HttpResp)
    (ef tif : List (String × Val)) (rest : List Val)
    (hws : st.workspace = some w) (hwt : w.isTruthy = true)
    (hwid : pyGetItem w "id" = .ok (.str wid))
    (huresp : server (userReq st.headers) = uresp)
    (hu2xx : 200 ≤ uresp.status_code ∧ uresp.status_code < 300)
    (huid : pyGetItem uresp.json "id" = .ok (.str uid))
    (hteresp : server (teReq wid uid st.headers) = teresp)
    (hte2xx : 200 ≤ teresp.status_code ∧ teresp.status_code < 300)
    (htejson : teresp.json = .arr (Val.obj ef :: rest))
    (hti : ef.lookup "timeInterval" = some (.obj tif)) :
    (pyIsNone (tif.lookup "end") = true →
      Clockify.get_running_timer server st =
        (.ok (Val.obj ef), st,
         [userReq st.headers, teReq wid uid st.headers])) ∧
    (pyIsNone (tif.lookup "end") = false →
      Clockify.get_running_timer server st =
        (.ok Val.null, st,
         [userReq st.headers, teReq wid uid st.headers])) := by
  have h := grt_run server st w wid uid uresp teresp ef tif rest hws hwt
    hwid huresp hu2xx huid hteresp hte2xx htejson hti
  constructor <;> intro hend <;> rw [h] <;> simp [hend]

/-- Claim C7, witness: the running entry is returned when its `end` is
null; the sentinel is returned when its `end` is a timestamp. -/
theorem C7_witness :
    Clockify.get_running_timer runningTEServer demoStateW =
      (.ok (.obj [("id", .str "e1"),
                  ("timeInterval", .obj [("start", .str "2024-01-01T00:00:00Z"),
                                         ("end", .null)])]),
       demoStateW, [userReq demoStateW.headers,
                    teReq "w1" "u1" demoStateW.headers]) ∧
    Clockify.get_running_timer stoppedTEServer demoStateW =
      (.ok Val.null, demoStateW,
       [userReq demoStateW.headers, teReq "w1" "u1" demoStateW.headers]) :=
  ⟨(C7_running_timer_end_null runningTEServer demoStateW demoWorkspace
      "w1" "u1"
      { status_code := 200, text := "", json := .obj [("id", .str "u1")] }
      { status_code := 200, text := "",
        json := .arr [.obj [("id", .str "e1"),
                            ("timeInterval",
                             .obj [("start", .str "2024-01-01T00:00:00Z"),
                                   ("end", .null)])]] }
      [("id", .str "e1"),
       ("timeInterval", .obj [("start", .str "2024-01-01T00:00:00Z"),
                              ("end", .null)])]
      [("start", .str "2024-01-01T00:00:00Z"), ("end", .null)] []
      rfl rfl rfl rfl (by norm_num) rfl rfl (by norm_num) rfl rfl).1 rfl,
   (C7_running_timer_end_null stoppedTEServer demoStateW demoWorkspace
      "w1" "u1"
      { status_code := 200, text := "", json := .obj [("id", .str "u1")] }
      { status_code := 200, text := "",
        json := .arr [.obj [("id", .str "e1"),
                            ("timeInterval",
                             .obj [("start", .str "2024-01-01T00:00:00Z"),
                                   ("end", .str "2024-01-01T01:00:00Z")])]] }
      [("id", .str "e1"),
       ("timeInterval", .obj [("start", .str "2024-01-01T00:00:00Z"),
                              ("end", .str "2024-01-01T01:00:00Z")])]
      [("start", .str "2024-01-01T00:00:00Z"),
       ("end", .str "2024-01-01T01:00:00Z")] []
      rfl rfl rfl rfl (by norm_num) rfl rfl (by norm_num) rfl rfl).2 rfl⟩

/-! ## Claim C8: `stop_timer` with no running timer -/

/-- Claim C8: when the most recent entry is not running, `stop_timer`
returns the sentinel, issues zero PATCH calls, and in fact issues only
GET requests — the remote timer state is untouched. -/
theorem C8_stop_timer_noop (server : Server) (st : ClientState)
    (w : Val) (wid uid now : String) (uresp teresp : HttpResp)
    (ef tif : List (String × Val)) (rest : List Val)
    (hws : st.workspace = some w) (hwt : w.isTruthy = true)
    (hwid : pyGetItem w "id" = .ok (.str wid))
    (huresp : server (userReq st.headers) = uresp)
    (hu2xx : 200 ≤ uresp.status_code ∧ uresp.status_code < 300)
    (huid : pyGetItem uresp.json "id" = .ok (.str uid))
    (hteresp : server (teReq wid uid st.headers) = teresp)
    (hte2xx : 200 ≤ teresp.status_code ∧ teresp.status_code < 300)
    (htejson : teresp.json = .arr (Val.obj ef :: rest))
    (hti : ef.lookup "timeInterval" = some (.obj tif))
    (hend : pyIsNone (tif.lookup "end") = false) :
    Clockify.stop_timer server now st =
      (.ok Val.null, st, [userReq st.headers, teReq wid uid st.headers]) ∧
    countMethod (Clockify.stop_timer server now st).2.2 "PATCH" = 0 ∧
    ∀ r ∈ (Clockify.stop_timer server now st).2.2, r.method = "GET" := by
  have h := grt_run server st w wid uid uresp teresp ef tif rest hws hwt
    hwid huresp hu2xx huid hteresp hte2xx htejson hti
  have h1 : Clockify.stop_timer server now st =
      (.ok Val.null, st, [userReq st.headers, teReq wid uid st.headers]) := by
    simp [Clockify.stop_timer, h, hend, Val.isTruthy]
  refine ⟨h1, ?_, ?_⟩
  · rw [h1]
    rfl
  · intro r hr
    rw [h1] at hr
    simp only [List.mem_cons, List.not_mem_nil, or_false] at hr
    rcases hr with rfl | rfl <;> rfl

/-- Claim C8, witness: against the stopped-entry server, `stop_timer`
returns the sentinel with only the two GETs in the trace. -/
theorem C8_witness :
    Clockify.stop_timer stoppedTEServer "2024-01-01T02:00:00Z" demoStateW =
      (.ok Val.null, demoStateW,
       [userReq demoStateW.headers, teReq "w1" "u1" demoStateW.headers]) ∧
    countMethod (Clockify.stop_timer stoppedTEServer "2024-01-01T02:00:00Z"
      demoStateW).2.2 "PATCH" = 0 :=
  ⟨(C8_stop_timer_noop stoppedTEServer demoStateW demoWorkspace "w1" "u1"
      "2024-01-01T02:00:00Z"
      { status_code := 200, text := "", json := .obj [("id", .str "u1")] }
      { status_code := 200, text := "",
        json := .arr [.obj [("id", .str "e1"),
                            ("timeInterval",
                             .obj [("start", .str "2024-01-01T00:00:00Z"),
                                   ("end", .str "2024-01-01T01:00:00Z")])]] }
      [("id", .str "e1"),
       ("timeInterval", .obj [("start", .str "2024-01-01T00:00:00Z"),
                              ("end", .str "2024-01-01T01:00:00Z")])]
      [("start", .str "2024-01-01T00:00:00Z"),
       ("end", .str "2024-01-01T01:00:00Z")] []
      rfl rfl rfl rfl (by norm_num) rfl rfl (by norm_num) rfl rfl rfl).1,
   (C8_stop_timer_noop stoppedTEServer demoStateW demoWorkspace "w1" "u1"
      "2024-01-01T02:00:00Z"
      { status_code := 200, text := "", json := .obj [("id", .str "u1")] }
      { status_code := 200, text := "",
        json := .arr [.obj [("id", .str "e1"),
                            ("timeInterval",
                             .obj [("start", .str "2024-01-01T00:00:00Z"),
                                   ("end", .str "2024-01-01T01:00:00Z")])]] }
      [("id", .str "e1"),
       ("timeInterval", .obj [("start", .str "2024-01-01T00:00:00Z"),
                              ("end", .str "2024-01-01T01:00:00Z")])]
      [("start", .str "2024-01-01T00:00:00Z"),
       ("end", .str "2024-01-01T01:00:00Z")] []
      rfl rfl rfl rfl (by norm_num) rfl rfl (by norm_num) rfl rfl rfl).2.1⟩

/-- Claim C9, witness: `"Watching TV"` returns the first of the two
matching projects, an unmatched name returns the empty list, and the
empty filter returns the full list. -/
theorem C9_witness :
    Clockify.get_projects projectsServer "Watching TV" demoStateW =
      (.ok (.obj [("id", .str "p2"), ("name", .str "Watching TV")]),
       demoStateW, [projReq "w1" demoStateW.headers]) ∧
    Clockify.get_projects projectsServer "Nope" demoStateW =
      (.ok (.arr []), demoStateW, [projReq "w1" demoStateW.headers]) ∧
    Clockify.get_projects projectsServer "" demoStateW =
      (.ok (.arr [.obj [("id", .str "p1"), ("name", .str "Other")],
                  .obj [("id", .str "p2"), ("name", .str "Watching TV")],
                  .obj [("id", .str "p3"), ("name", .str "Watching TV")]]),
       demoStateW, [projReq "w1" demoStateW.headers]) := by
  have h := C9_get_projects_filter projectsServer demoStateW demoWorkspace
    "w1"
    { status_code := 200, text := "",
      json := .arr [.obj [("id", .str "p1"), ("name", .str "Other")],
                    .obj [("id", .str "p2"), ("name", .str "Watching TV")],
                    .obj [("id", .str "p3"), ("name", .str "Watching TV")]] }
    [.obj [("id", .str "p1"), ("name", .str "Other")],
     .obj [("id", .str "p2"), ("name", .str "Watching TV")],
     .obj [("id", .str "p3"), ("name", .str "Watching TV")]]
    rfl rfl rfl rfl (by norm_num) rfl
  have hshape : ∀ p ∈ [Val.obj [("id", Val.str "p1"), ("name", Val.str "Other")],
      Val.obj [("id", Val.str "p2"), ("name", Val.str "Watching TV")],
      Val.obj [("id", Val.str "p3"), ("name", Val.str "Watching TV")]],
      ∃ v, pyGetItem p "name" = .ok v := by
    intro p hp
    simp only [List.mem_cons, List.not_mem_nil, or_false] at hp
    rcases hp with h1 | h1 | h1 <;> subst h1 <;> exact ⟨_, rfl⟩
  exact ⟨h.1 "Watching TV" (by decide) hshape,
         h.1 "Nope" (by decide) hshape, h.2⟩

/-- Claim C10, witness: even when a project is literally named `""`, the
empty filter returns the full list — the empty string acts as the
absence of a filter, not as a name that matches nothing. -/
theorem C10_witness :
    Clockify.get_projects edgeProjServer "" demoStateW =
      (.ok (.arr [.obj [("id", .str "q1"), ("name", .str "")],
                  .obj [("id", .str "q2"), ("name", .str "X")]]),
       demoStateW, [projReq "w1" demoStateW.headers]) :=
  C10_get_projects_nofilter edgeProjServer demoStateW demoWorkspace "w1"
    { status_code := 200, text := "",
      json := .arr [.obj [("id", .str "q1"), ("name", .str "")],
                    .obj [("id", .str "q2"), ("name", .str "X")]] }
    rfl rfl rfl rfl (by norm_num)

/-- Claim C3, witness: at the initial store the construction fails; after
configuring the key `"abc"` it succeeds with the key in the headers. -/
theorem C3_witness :
    Clockify.new Conf.start =
      Except.error (.configurationError "clockify_api_key is not configured.") ∧
    Clockify.new { clockify_api_key := Val.str "abc",
                   plex_username := Val.str "u",
                   mapping := Val.null } =
      Except.ok { app_name := "PlexClockifyTracker_webhook",
                  workspace := none,
                  headers := [("content-type", Val.str "application/json"),
                              ("X-Api-Key", Val.str "abc")],
                  api_key := Val.str "abc" } :=
  ⟨(C3_client_construction Conf.start).1 rfl,
   ((C3_client_construction _).2 "abc" (by decide) rfl).1⟩

/-! ## Claim C5: `start_timer` with a running timer -/

/-- Claim C5: whenever a timer is currently running (the most recent
entry's `timeInterval.end` is null) and the stop PATCH succeeds,
`start_timer` issues exactly one PATCH (stopping the running entry)
followed by exactly one POST (creating the new entry), in that order —
every other request in the trace is a GET. -/
theorem C5_start_timer_stop_then_post (server : Server) (st : ClientState)
    (w : Val) (wid uid nowStop nowStart description project_id : String)
    (uresp teresp presp postresp : HttpResp)
    (ef tif : List (String × Val)) (rest : List Val)
    (hws : st.workspace = some w) (hwt : w.isTruthy = true)
    (hwid : pyGetItem w "id" = .ok (.str wid))
    (huresp : server (userReq st.headers) = uresp)
    (hu2xx : 200 ≤ uresp.status_code ∧ uresp.status_code < 300)
    (huid : pyGetItem uresp.json "id" = .ok (.str uid))
    (hteresp : server (teReq wid uid st.headers) = teresp)
    (hte2xx : 200 ≤ teresp.status_code ∧ teresp.status_code < 300)
    (htejson : teresp.json = .arr (Val.obj ef :: rest))
    (hti : ef.lookup "timeInterval" = some (.obj tif))
    (hend : pyIsNone (tif.lookup "end") = true)
    (hpresp : server (tePatchReq wid uid nowStop st.headers) = presp)
    (hp2xx : 200 ≤ presp.status_code ∧ presp.status_code < 300)
    (hpostresp : server (tePostReq wid nowStart description project_id
      st.headers) = postresp)
    (hpost2xx : 200 ≤ postresp.status_code ∧ postresp.status_code < 300) :
    Clockify.start_timer server nowStop nowStart description project_id st =
      (.ok postresp.json, st,
       [userReq st.headers, teReq wid uid st.headers, userReq st.headers,
        teReq wid uid st.headers, userReq st.headers,
        tePatchReq wid uid nowStop st.headers, userReq st.headers,
        tePostReq wid nowStart description project_id st.headers]) ∧
    countMethod (Clockify.start_timer server nowStop nowStart description
      project_id st).2.2 "PATCH" = 1 ∧
    countMethod (Clockify.start_timer server nowStop nowStart description
      project_id st).2.2 "POST" = 1 ∧
    ((Clockify.start_timer server nowStop nowStart description project_id
        st).2.2.filter (fun r => decide (r.method = "PATCH") ||
          decide (r.method = "POST"))).map Req.method = ["PATCH", "POST"] := by
  have hgrt := grt_run server st w wid uid uresp teresp ef tif rest hws hwt
    hwid huresp hu2xx huid hteresp hte2xx htejson hti
  have hstop := stop_timer_run server st w wid uid nowStop uresp teresp presp
    ef tif rest hws hwt hwid huresp hu2xx huid hteresp hte2xx htejson hti
    hend hpresp hp2xx
  have htruthy : (Val.obj ef).isTruthy = true := by
    cases ef with
    | nil => simp [List.lookup] at hti
    | cons p tl => simp [Val.isTruthy]
  have hgw := get_workspace_cached server st w hws hwt
  have huresp' : server { endpoint := "/user", params := [], method := "GET",
                          body := [], headers := st.headers } = uresp := huresp
  have hrequ : Clockify.request server "/user" [] "GET" [] st =
      (.ok uresp, st, [userReq st.headers]) := by
    rw [Clockify.request_apply_ok _ _ _ _ _ _ (by rw [huresp']; exact hu2xx),
      huresp']
    rfl
  have hpostresp' : server { endpoint := "/workspaces/" ++ wid ++
                               "/time-entries",
                             params := [], method := "POST",
                             body := [("start", .str nowStart),
                                      ("description", .str description),
                                      ("projectId", .str project_id),
                                      ("billable", .str "false")],
                             headers := st.headers } = postresp := hpostresp
  have hreqpost : Clockify.request server
      ("/workspaces/" ++ wid ++ "/time-entries") [] "POST"
      [("start", .str nowStart), ("description", .str description),
       ("projectId", .str project_id), ("billable", .str "false")] st =
      (.ok postresp, st,
       [tePostReq wid nowStart description project_id st.headers]) := by
    rw [Clockify.request_apply_ok _ _ _ _ _ _
      (by rw [hpostresp']; exact hpost2xx), hpostresp']
    rfl
  have h1 : Clockify.start_timer server nowStop nowStart description
      project_id st =
      (.ok postresp.json, st,
       [userReq st.headers, teReq wid uid st.headers, userReq st.headers,
        teReq wid uid st.headers, userReq st.headers,
        tePatchReq wid uid nowStop st.headers, userReq st.headers,
        tePostReq wid nowStart description project_id st.headers]) := by
    simp [Clockify.start_timer, hgrt, hend, htruthy, hstop, hgw, hwid,
      Val.pyStr, hrequ, huid, hreqpost]
  refine ⟨h1, ?_, ?_, ?_⟩ <;> rw [h1] <;> rfl

/-! ## Claim C2: the POST issued by `start_timer` -/

/-- Claim C2, amended: `start_timer(description, projectId)` POSTs a new
time entry whose body has `start` equal to the current-UTC-time string,
`description` and `projectId` as given, and `billable` equal to the
string `"false"` (not the boolean `false`), and returns the created
entry (the POST response json). -/
theorem C2_amended_start_timer_post (server : Server) (st : ClientState)
    (w : Val) (wid uid nowStop nowStart description project_id : String)
    (uresp teresp postresp : HttpResp)
    (hws : st.workspace = some w) (hwt : w.isTruthy = true)
    (hwid : pyGetItem w "id" = .ok (.str wid))
    (huresp : server (userReq st.headers) = uresp)
    (hu2xx : 200 ≤ uresp.status_code ∧ uresp.status_code < 300)
    (huid : pyGetItem uresp.json "id" = .ok (.str uid))
    (hteresp : server (teReq wid uid st.headers) = teresp)
    (hte2xx : 200 ≤ teresp.status_code ∧ teresp.status_code < 300)
    (htejson : teresp.json = .arr [])
    (hpostresp : server (tePostReq wid nowStart description project_id
      st.headers) = postresp)
    (hpost2xx : 200 ≤ postresp.status_code ∧ postresp.status_code < 300) :
    Clockify.start_timer server nowStop nowStart description project_id st =
      (.ok postresp.json, st,
       [userReq st.headers, teReq wid uid st.headers, userReq st.headers,
        tePostReq wid nowStart description project_id st.headers]) ∧
    (tePostReq wid nowStart description project_id st.headers).method =
      "POST" ∧
    (tePostReq wid nowStart description project_id st.headers).body =
      [("start", .str nowStart), ("description", .str description),
       ("projectId", .str project_id), ("billable", .str "false")] := by
  have hgrt := grt_run_empty server st w wid uid uresp teresp hws hwt
    hwid huresp hu2xx huid hteresp hte2xx htejson
  have hgw := get_workspace_cached server st w hws hwt
  have huresp' : server { endpoint := "/user", params := [], method := "GET",
                          body := [], headers := st.headers } = uresp := huresp
  have hrequ : Clockify.request server "/user" [] "GET" [] st =
      (.ok uresp, st, [userReq st.headers]) := by
    rw [Clockify.request_apply_ok _ _ _ _ _ _ (by rw [huresp']; exact hu2xx),
      huresp']
    rfl
  have hpostresp' : server { endpoint := "/workspaces/" ++ wid ++
                               "/time-entries",
                             params := [], method := "POST",
                             body := [("start", .str nowStart),
                                      ("description", .str description),
                                      ("projectId", .str project_id),
                                      ("billable", .str "false")],
                             headers := st.headers } = postresp := hpostresp
  have hreqpost : Clockify.request server
      ("/workspaces/" ++ wid ++ "/time-entries") [] "POST"
      [("start", .str nowStart), ("description", .str description),
       ("projectId", .str project_id), ("billable", .str "false")] st =
      (.ok postresp, st,
       [tePostReq wid nowStart description project_id st.headers]) := by
    rw [Clockify.request_apply_ok _ _ _ _ _ _
      (by rw [hpostresp']; exact hpost2xx), hpostresp']
    rfl
  refine ⟨?_, rfl, rfl⟩
  simp [Clockify.start_timer, hgrt, Val.isTruthy, hgw, hwid, Val.pyStr,
    hrequ, huid, hreqpost]

/-- Claim C2, counterexample.  The claim says the POST body's `billable`
is the boolean `false`; the code builds `{"billable": "false"}` — the
string `"false"` — so the POSTed value differs from the boolean. -/
theorem C2_counterexample :
    ((Clockify.start_timer noTimerServer "2024-01-01T00:00:00Z"
        "2024-01-01T00:00:00Z" "Watching X" "proj123") demoStateW).2.2.getLast?.map
      (fun r => r.body.lookup "billable") = some (some (Val.str "false")) ∧
    Val.str "false" ≠ Val.bool false :=
  ⟨rfl, fun h => Val.noConfusion h⟩

/-- Claim C2, witness: the amended statement at the concrete
no-running-timer server. -/
theorem C2_witness :
    Clockify.start_timer noTimerServer "2024-01-01T00:00:00Z"
      "2024-01-01T00:00:00Z" "Watching X" "proj123" demoStateW =
      (.ok (.obj [("id", .str "new1"), ("projectId", .str "proj123")]),
       demoStateW,
       [userReq demoStateW.headers, teReq "w1" "u1" demoStateW.headers,
        userReq demoStateW.headers,
        tePostReq "w1" "2024-01-01T00:00:00Z" "Watching X" "proj123"
          demoStateW.headers]) :=
  (C2_amended_start_timer_post noTimerServer demoStateW demoWorkspace
    "w1" "u1" "2024-01-01T00:00:00Z" "2024-01-01T00:00:00Z" "Watching X"
    "proj123"
    { status_code := 200, text := "", json := .obj [("id", .str "u1")] }
    { status_code := 200, text := "", json := .arr [] }
    { status_code := 201, text := "created",
      json := .obj [("id", .str "new1"), ("projectId", .str "proj123")] }
    rfl rfl rfl rfl (by norm_num) rfl rfl (by norm_num) rfl rfl
    (by norm_num)).1

/-- Claim C5, witness: against the busy server the trace holds exactly
one PATCH and one POST, the PATCH first. -/
theorem C5_witness :
    countMethod (Clockify.start_timer busyServer "2024-01-01T01:00:00Z"
      "2024-01-01T01:00:00Z" "Watching X" "proj123" demoStateW).2.2
      "PATCH" = 1 ∧
    countMethod (Clockify.start_timer busyServer "2024-01-01T01:00:00Z"
      "2024-01-01T01:00:00Z" "Watching X" "proj123" demoStateW).2.2
      "POST" = 1 ∧
    ((Clockify.start_timer busyServer "2024-01-01T01:00:00Z"
        "2024-01-01T01:00:00Z" "Watching X" "proj123"
        demoStateW).2.2.filter (fun r => decide (r.method = "PATCH") ||
          decide (r.method = "POST"))).map Req.method = ["PATCH", "POST"] :=
  ((C5_start_timer_stop_then_post busyServer demoStateW demoWorkspace
    "w1" "u1" "2024-01-01T01:00:00Z" "2024-01-01T01:00:00Z" "Watching X"
    "proj123"
    { status_code := 200, text := "", json := .obj [("id", .str "u1")] }
    { status_code := 200, text := "",
      json := .arr [.obj [("id", .str "e1"),
                          ("timeInterval",
                           .obj [("start", .str "2024-01-01T00:00:00Z"),
                                 ("end", .null)])]] }
    { status_code := 200, text := "",
      json := .obj [("id", .str "e1"),
                    ("timeInterval",
                     .obj [("start", .str "2024-01-01T00:00:00Z"),
                           ("end", .str "2024-01-01T01:00:00Z")])] }
    { status_code := 201, text := "", json := .obj [("id", .str "e2")] }
    [("id", .str "e1"),
     ("timeInterval", .obj [("start", .str "2024-01-01T00:00:00Z"),
                            ("end", .null)])]
    [("start", .str "2024-01-01T00:00:00Z"), ("end", .null)] []
    rfl rfl rfl rfl (by norm_num) rfl rfl (by norm_num) rfl rfl rfl rfl
    (by norm_num) rfl (by norm_num)).2 : _ ∧ _ ∧ _)

theorem failFast_pure {α : Type} (server : Server) (a : α) :
    FailFast server (CM.pure a) := by
  intro s r hr
  simp at hr

theorem failFast_throw {α : Type} (server : Server) (e : PyError) :
    FailFast server (CM.throw e : CM α) := by
  intro s r hr
  simp [CM.throw] at hr

theorem failFast_read (server : Server) : FailFast server CM.read := by
  intro s r hr
  simp [CM.read] at hr

theorem failFast_write (server : Server) (s' : ClientState) :
    FailFast server (CM.write s') := by
  intro s r hr
  simp [CM.write] at hr

theorem failFast_ofExcept {α : Type} (server : Server)
    (x : Except PyError α) : FailFast server (CM.ofExcept x) := by
  cases x with
  | ok a => exact failFast_pure server a
  | error e => exact failFast_throw server e

theorem failFast_request (server : Server) (endpoint : String)
    (params : List (String × Val)) (method : String)
    (body : List (String × Val)) :
    FailFast server (Clockify.request server endpoint params method body) := by
  intro s r hr hbad
  unfold Clockify.request at hr ⊢
  dsimp only at hr ⊢
  by_cases hc : (server { endpoint := endpoint, params := params,
                          method := method, body := body,
                          headers := s.headers }).status_code < 200 ∨
      300 ≤ (server { endpoint := endpoint, params := params,
                      method := method, body := body,
                      headers := s.headers }).status_code
  · rw [if_pos hc] at hr ⊢
    simp only [List.mem_singleton] at hr
    subst hr
    exact ⟨rfl, rfl⟩
  · rw [if_neg hc] at hr ⊢
    simp only [List.mem_singleton] at hr
    subst hr
    exact absurd hbad hc

theorem failFast_bind {α β : Type} {server : Server} {m : CM α}
    {f : α → CM β} (hm : FailFast server m)
    (hf : ∀ a, FailFast server (f a)) : FailFast server (m >>= f) := by
  intro s r hr hbad
  rw [CM.bind_apply] at hr ⊢
  rcases hres : (m s).1 with e | a
  · rw [hres] at hr
    dsimp only at hr ⊢
    obtain ⟨h1, h2⟩ := hm s r hr hbad
    rw [hres] at h2
    injection h2 with he
    exact ⟨h1, by rw [he]⟩
  · rw [hres] at hr
    dsimp only at hr ⊢
    rcases List.mem_append.mp hr with hr1 | hr2
    · have h := hm s r hr1 hbad
      rw [hres] at h
      exact absurd h.2 (by simp)
    · have h := hf a ((m s).2.1) r hr2 hbad
      refine ⟨?_, h.2⟩
      rw [List.getLast?_append_of_ne_nil _ (List.ne_nil_of_mem hr2)]
      exact h.1

theorem failFast_get_workspace (server : Server) :
    FailFast server (Clockify.get_workspace server) := by
  unfold Clockify.get_workspace
  apply failFast_bind (failFast_read server)
  intro s
  by_cases hc : pyOptTruthy s.workspace <;> simp only [hc]
  · simp only [if_true]
    exact failFast_pure server _
  · simp only [Bool.false_eq_true, if_false]
    apply failFast_bind (failFast_request server _ _ _ _)
    intro rtn
    apply failFast_bind (failFast_ofExcept server _)
    intro w
    apply failFast_bind (failFast_write server _)
    intro _
    exact failFast_pure server _

theorem failFast_get_projects (server : Server) (name : String) :
    FailFast server (Clockify.get_projects server name) := by
  unfold Clockify.get_projects
  apply failFast_bind (failFast_get_workspace server)
  intro w
  apply failFast_bind (failFast_ofExcept server _)
  intro wid
  apply failFast_bind (failFast_request server _ _ _ _)
  intro rtn
  by_cases hn : name != "" <;> simp only [hn]
  · simp only [if_true]
    cases rtn.json with
    | arr ps =>
      apply failFast_bind (failFast_ofExcept server _)
      intro project
      cases project with
      | nil => exact failFast_pure server _
      | cons p tl => exact failFast_pure server _
    | null => exact failFast_throw server _
    | bool b => exact failFast_throw server _
    | num n => exact failFast_throw server _
    | str s => exact failFast_throw server _
    | obj fs => exact failFast_throw server _
  · simp only [Bool.false_eq_true, if_false]
    exact failFast_pure server _

theorem failFast_get_running_timer (server : Server) :
    FailFast server (Clockify.get_running_timer server) := by
  unfold Clockify.get_running_timer
  apply failFast_bind (failFast_get_workspace server)
  intro w
  apply failFast_bind (failFast_ofExcept server _)
  intro wid
  apply failFast_bind (failFast_request server _ _ _ _)
  intro urtn
  apply failFast_bind (failFast_ofExcept server _)
  intro uid
  apply failFast_bind (failFast_request server _ _ _ _)
  intro rtn
  by_cases ht : rtn.json.isTruthy <;> simp only [ht]
  · simp only [if_true]
    apply failFast_bind (failFast_ofExcept server _)
    intro e0
    apply failFast_bind (failFast_ofExcept server _)
    intro hasTI
    cases hasTI with
    | true =>
      simp only [if_true]
      apply failFast_bind (failFast_ofExcept server _)
      intro ti
      apply failFast_bind (failFast_ofExcept server _)
      intro endv
      by_cases he : pyIsNone endv <;> simp only [he] <;>
        first
          | (simp only [if_true]; exact failFast_pure server _)
          | (simp only [Bool.false_eq_true, if_false];
             exact failFast_pure server _)
    | false =>
      simp only [Bool.false_eq_true, if_false]
      exact failFast_pure server _
  · simp only [Bool.false_eq_true, if_false]
    exact failFast_pure server _

theorem failFast_stop_timer (server : Server) (now : String) :
    FailFast server (Clockify.stop_timer server now) := by
  unfold Clockify.stop_timer
  apply failFast_bind (failFast_get_running_timer server)
  intro timer
  by_cases ht : !timer.isTruthy <;> simp only [ht]
  · simp only [if_true]
    exact failFast_pure server _
  · simp only [Bool.false_eq_true, if_false]
    apply failFast_bind (failFast_get_workspace server)
    intro w
    apply failFast_bind (failFast_ofExcept server _)
    intro wid
    apply failFast_bind (failFast_request server _ _ _ _)
    intro urtn
    apply failFast_bind (failFast_ofExcept server _)
    intro uid
    apply failFast_bind (failFast_request server _ _ _ _)
    intro rtn
    exact failFast_pure server _

theorem failFast_start_timer (server : Server)
    (nowStop nowStart description project_id : String) :
    FailFast server
      (Clockify.start_timer server nowStop nowStart description project_id) := by
  unfold Clockify.start_timer
  apply failFast_bind (failFast_get_running_timer server)
  intro running
  dsimp only
  by_cases hr : running.isTruthy = true <;>
    simp only [hr, if_true, Bool.false_eq_true, if_false] <;>
    [apply failFast_bind (failFast_stop_timer server nowStop);
     apply failFast_bind (failFast_pure server Val.null)] <;>
  · intro _
    apply failFast_bind (failFast_get_workspace server)
    intro w
    apply failFast_bind (failFast_ofExcept server _)
    intro wid
    apply failFast_bind (failFast_request server _ _ _ _)
    intro urtn
    apply failFast_bind (failFast_ofExcept server _)
    intro _
    apply failFast_bind (failFast_request server _ _ _ _)
    intro rtn
    exact failFast_pure server _

/-- Claim C4: every client operation fails fast: for every server and
state, any HTTP response with a status code outside [200, 300) makes the
operation return `remoteAPIError` with that status code and response
body, the offending request is the last one of the operation's trace (no
further HTTP call is made within the operation), and in particular no
request is ever reissued after a failure. -/
theorem C4_fail_fast_no_retry (server : Server) :
    FailFast server (Clockify.get_workspace server) ∧
    (∀ name : String, FailFast server (Clockify.get_projects server name)) ∧
    FailFast server (Clockify.get_running_timer server) ∧
    (∀ now : String, FailFast server (Clockify.stop_timer server now)) ∧
    (∀ nowStop nowStart description project_id : String,
      FailFast server
        (Clockify.start_timer server nowStop nowStart description
          project_id)) :=
  ⟨failFast_get_workspace server,
   fun name => failFast_get_projects server name,
   failFast_get_running_timer server,
   fun now => failFast_stop_timer server now,
   fun a b c d => failFast_start_timer server a b c d⟩

/-- Claim C4, witness: against the all-500 server, `get_workspace` from
a fresh state issues exactly its one `GET /workspaces`, which is the
last request of the trace, and fails with `remoteAPIError 500` carrying
the response body. -/
theorem C4_witness :
    (Clockify.get_workspace failingServer demoState).2.2.getLast? =
      some (wsReq demoState.headers) ∧
    (Clockify.get_workspace failingServer demoState).1 =
      .error (.remoteAPIError 500 "Internal Server Error") :=
  (C4_fail_fast_no_retry failingServer).1 demoState
    (wsReq demoState.headers)
    (show wsReq demoState.headers ∈ [wsReq demoState.headers] from
      List.mem_singleton.mpr rfl)
    (Or.inr (by norm_num [failingServer]))

end PlexClockify

